import Mathlib

/-!
Verification of the A10 Runner orchestration pipeline (src/server.js and its
variants src/unnamed/part_002, part_003, part_007).

The JavaScript service is shallowly embedded: each stateful interaction with
the remote file store or the HTTP transport is represented by an explicit
outcome value handed to the pure Lean function that mirrors the source code,
and a JavaScript function that can throw is modelled as a function into
`Except`, where `Except.error` stands for an exception propagating to the
caller.  JavaScript numbers that are used as counters are modelled as `Nat`
(the code only ever adds 1 to them); absent object fields are modelled as
`Option.none`, and the JavaScript falsy coercions (`x || d`) are translated
at each use site exactly as the source applies them.
-/

namespace A10

/-! ## Store client (GitHub helpers)

`octokit.repos.getContent` either resolves with a directory listing (an
array), resolves with a file record carrying a `sha` string, or rejects with
an error that has an optional HTTP status and a message.  -/

/-- Outcome of one `octokit.repos.getContent` call. -/
inductive GetContentResult where
  | dir : GetContentResult
  | file (sha : String) : GetContentResult
  | threw (status : Option Nat) (msg : String) : GetContentResult
deriving DecidableEq

/-- An error thrown by the store client: HTTP status (absent for pure
transport failures) and message, as read by the catch blocks
(`err?.status || err?.response?.status`, `err?.message`). -/
structure StoreErr where
  status : Option Nat
  msg : String
deriving DecidableEq

/-- `getFileShaOrNull` from src/server.js lines 40-52: a directory answer or
a falsy `data.sha` yields null; a 404 yields null; every other thrown error
is also mapped to null (the source comments `// never throw here`). -/
def getFileShaOrNull_srv : GetContentResult → Option String
  | .dir => none
  | .file sha => if sha = "" then none else some sha
  | .threw _ _ => none

/-- `getFileShaOrNull` from src/unnamed/part_002 lines 275-289: the same
success mapping, but only a 404 becomes null; any other thrown error is
re-thrown (`throw err`), modelled as `Except.error`. -/
def getFileShaOrNull_p2 : GetContentResult → Except StoreErr (Option String)
  | .dir => .ok none
  | .file sha => .ok (if sha = "" then none else some sha)
  | .threw st msg => if st = some 404 then .ok none else .error ⟨st, msg⟩

/-! ## Commit engine (`commitWithRetry`, `commitMany`, src/server.js 54-121)

One loop iteration of `commitWithRetry` performs a sha lookup (which never
throws in this variant) followed by a `createOrUpdateFileContents` write
which either resolves with an HTTP status or throws.  The environment below
records, per attempt index, what the store would do on that attempt. -/

deriving instance DecidableEq for Except

/-- What the store does on one commit attempt: the `getContent` answer seen
by the sha lookup, and the result of the subsequent write (`Except.error`
models the write throwing, e.g. a 409 conflict). -/
structure AttemptOutcome where
  getContent : GetContentResult
  write : Except StoreErr Nat
deriving DecidableEq

/-- Per-file commit outcome, mirroring the objects returned by
`commitWithRetry`: `{ok:true, branch, created, updated, path, status}` on
success, `{ok:false, path, error, code}` on a final failed attempt, and
`{ok:false, path, error:"unknown_commit_failure"}` when the loop body never
returns (only reachable with `tries = 0`). -/
inductive CommitResult where
  | success (branch : String) (created updated : Bool) (path : String) (status : Nat)
  | failure (path : String) (error : String) (code : Option Nat)
  | unknownFailure (path : String)
deriving DecidableEq

/-- `ok` field of a commit outcome. -/
def CommitResult.isOk : CommitResult → Bool
  | .success _ _ _ _ _ => true
  | _ => false

/-- A full run of the retry loop: the returned outcome, the list of backoff
delays slept (in milliseconds, in order), and how many attempts were made. -/
structure CommitRun where
  result : CommitResult
  delays : List Nat
  attempts : Nat
deriving DecidableEq

/-- The retry loop of `commitWithRetry` (src/server.js lines 58-80).
`i` is the loop index, `fuel` the number of remaining iterations
(`tries - i`); the source's `last = (i === tries - 1)` test corresponds to
`fuel = 1`.  On success the outcome's `created` is `!sha` and `updated` is
`!!sha` for the sha returned by `getFileShaOrNull`; on a non-final failure
the loop sleeps `400 * (i + 1)` and continues; on a final failure it returns
the failed outcome with the error's message and code. -/
def commitLoop (env : Nat → AttemptOutcome) (path ref : String) : Nat → Nat → CommitRun
  | _, 0 => ⟨.unknownFailure path, [], 0⟩
  | i, fuel + 1 =>
    match (env i).write with
    | .ok st =>
      ⟨.success ref (getFileShaOrNull_srv (env i).getContent).isNone
        (getFileShaOrNull_srv (env i).getContent).isSome path st, [], 1⟩
    | .error e =>
      match fuel with
      | 0 => ⟨.failure path e.msg e.status, [], 1⟩
      | f + 1 =>
        ⟨(commitLoop env path ref (i + 1) (f + 1)).result,
         400 * (i + 1) :: (commitLoop env path ref (i + 1) (f + 1)).delays,
         (commitLoop env path ref (i + 1) (f + 1)).attempts + 1⟩

/-- The default retry budget of `commitWithRetry` (`tries = 3`). -/
def defaultTries : Nat := 3

/-- The backoff schedule slept by a run of the retry loop that starts at
loop index `i` and makes `n` more non-final failing attempts: the source
sleeps `400 * (loop index + 1)` ms after each non-final failure. -/
def backoffDelays : Nat → Nat → List Nat
  | _, 0 => []
  | i, n + 1 => 400 * (i + 1) :: backoffDelays (i + 1) n

/-- One entry of the `files` array handed to `commitMany`. -/
structure FileSpec where
  path : String
  content : String
deriving DecidableEq

/-- `commitMany` (src/server.js lines 103-121): commits the files one after
another with `commitWithRetry` at its default `tries = 3`, pushing every
outcome onto `results` and additionally pushing failed outcomes onto
`errors`; a failure does not stop the loop.  `env k` is the store
environment seen by the file at overall position `k`; the 120 ms pacing
sleep between files has no bearing on the outcomes and is not modelled. -/
def commitMany (env : Nat → Nat → AttemptOutcome) (ref : String) :
    List FileSpec → Nat → List CommitResult × List CommitResult
  | [], _ => ([], [])
  | f :: rest, idx =>
    let r := (commitLoop (env idx) f.path ref 0 defaultTries).result
    let tail := commitMany env ref rest (idx + 1)
    (r :: tail.1, if r.isOk then tail.2 else r :: tail.2)

/-! ## Stage forwarder (`forward`)

The forwarder builds its URL and request body purely; all that can
distinguish runs is what the transport does.  A `fetch` call either rejects
(network failure) or resolves with a response whose body text is then
parsed.  `JSON.parse` is an external library call and is abstracted as a
parse oracle `parse : String → Option α`. -/

/-- Outcome of the `fetch` call inside `forward`. -/
inductive FetchOutcome where
  | netError (msg : String)
  | response (text : String)
deriving DecidableEq

/-- Value returned by a forwarder. -/
inductive ForwardReturn (α : Type) where
  | value (v : α)
  | rawWrap (text : String)
  | errorWrap (msg : String)
  | rawNotOk (text : String)
deriving DecidableEq

/-- `forward` from src/server.js lines 124-138: there is no try/catch around
the `fetch` (or the `r.text()`), so a rejected transport propagates the
exception to the caller (`Except.error`); only the `JSON.parse` of the body
is guarded, an unparsable body becoming `{raw: text}` (`rawWrap`). -/
def forward_srv {α : Type} (parse : String → Option α) :
    FetchOutcome → Except String (ForwardReturn α)
  | .netError msg => .error msg
  | .response text =>
    .ok (match parse text with
      | some v => .value v
      | none => .rawWrap text)

/-- `forward` from src/unnamed/part_003 lines 160-179: the whole call is
inside try/catch, so a rejected transport is returned as
`{ok:false, error}` (`errorWrap`) and an unparsable body as
`{ok:false, raw: text}` (`rawNotOk`); this variant is total — it never
propagates an exception. -/
def forward_p3 {α : Type} (parse : String → Option α) :
    FetchOutcome → ForwardReturn α
  | .netError msg => .errorWrap msg
  | .response text =>
    match parse text with
    | some v => .value v
    | none => .rawNotOk text

/-! ## Regular-expression predicates of the tester and quality stages

The handful of concrete regexes used by src/server.js are implemented
directly as character-list scanners.  Every literal in the case-insensitive
patterns is a lowercase ASCII letter or punctuation, so the `/i` flag is
modelled by an ASCII case-insensitive literal match; `\s` is modelled by
`Char.isWhitespace` and `.` (which in JavaScript matches everything except
line terminators) by "not `\n` and not `\r`" — both exact on the ASCII
texts these checks are aimed at. -/

/-- Strip an expected literal run of characters, returning the rest. -/
def dropPre : List Char → List Char → Option (List Char)
  | [], l => some l
  | _, [] => none
  | p :: ps, c :: cs => if c = p then dropPre ps cs else none

/-- Does `pat` occur as a contiguous run anywhere in the subject? -/
def containsSeq (pat : List Char) : List Char → Bool
  | [] => (dropPre pat []).isSome
  | c :: cs => (dropPre pat (c :: cs)).isSome || containsSeq pat cs

/-- `hay` contains `needle` as a substring. -/
def hasSubstring (needle hay : String) : Bool :=
  containsSeq needle.toList hay.toList

/-- Subject character `c` matches lowercase pattern character `p` ignoring
ASCII case. -/
def matchCI (p c : Char) : Bool :=
  c = p || (65 ≤ c.toNat && c.toNat ≤ 90 && c.toNat + 32 = p.toNat)

/-- Strip an expected literal run, ignoring ASCII case. -/
def dropPreCI : List Char → List Char → Option (List Char)
  | [], l => some l
  | _, [] => none
  | p :: ps, c :: cs => if matchCI p c then dropPreCI ps cs else none

/-- After `<title>`: consume `[^<]+` (at least one non-`<` character, the
flag records whether one was seen), then require the literal `</title>`. -/
def titleTail : List Char → Bool → Bool
  | [], _ => false
  | c :: cs, seen =>
    if c = '<' then seen && (dropPreCI "/title>".toList cs).isSome
    else titleTail cs true

/-- Scan all start positions for `<title>[^<]+</title>`. -/
def titleScan : List Char → Bool
  | [] => false
  | c :: cs =>
    (match dropPreCI "<title>".toList (c :: cs) with
      | some tail => titleTail tail false
      | none => false) || titleScan cs

/-- `/<title>[^<]+<\/title>/i.test(html)` (src/server.js line 405). -/
def htmlTitleTest (s : String) : Bool := titleScan s.toList

/-- After `{`: consume `[^}]+` (at least one non-`}` character), then `}`. -/
def braceTail : List Char → Bool → Bool
  | [], _ => false
  | c :: cs, seen => if c = '}' then seen else braceTail cs true

/-- After `:root`: skip `\s*`, then require `{[^}]+}`. -/
def afterRoot : List Char → Bool
  | [] => false
  | c :: cs => if c.isWhitespace then afterRoot cs else c = '{' && braceTail cs false

/-- Scan all start positions for `:root\s*\{[^}]+\}`. -/
def rootScan : List Char → Bool
  | [] => false
  | c :: cs =>
    (match dropPreCI ":root".toList (c :: cs) with
      | some tail => afterRoot tail
      | none => false) || rootScan cs

/-- `/:root\s*\{[^}]+\}/i.test(css)` (src/server.js line 406). -/
def cssVarsTest (s : String) : Bool := rootScan s.toList

/-- After `@`: consume `.+` (at least one non-line-terminator), then a
literal `.`; a line terminator ends the reach of this `@`. -/
def atTail : List Char → Bool → Bool
  | [], _ => false
  | c :: cs, seen =>
    if c = '\n' ∨ c = '\r' then false
    else (seen && c = '.') || atTail cs true

/-- Scan all start positions for `@.+\.`. -/
def atScan : List Char → Bool
  | [] => false
  | c :: cs => (c = '@' && atTail cs false) || atScan cs

/-- `/isValidEmail|@.+\./.test(js)` (src/server.js line 407, case
sensitive). -/
def jsEmailTest (s : String) : Bool :=
  containsSeq "isValidEmail".toList s.toList || atScan s.toList

/-! ## Tester stage (`POST /run/tester`, src/server.js 386-435) -/

/-- One check description handed to the tester (`{id, description,
required}`). -/
structure Check where
  id : String
  description : String
  required : Bool
deriving DecidableEq

/-- One per-check result pushed by the tester (`{id, ok, note}`). -/
structure CheckResult where
  id : String
  ok : Bool
  note : String
deriving DecidableEq

/-- The checks the tester iterates over: the payload's checks concatenated
with the two hardcoded required checks (src/server.js lines 398-401). -/
def testerChecks (payloadChecks : List Check) : List Check :=
  payloadChecks ++
    [⟨"html_title", "index has <title>", true⟩,
     ⟨"css_vars", "css has :root vars", true⟩]

/-- Evaluation of a single check against the fetched file contents
(src/server.js lines 403-409): the three known ids run their regex, any
other id keeps the initial `let ok = true`. -/
def checkEval (html css js : String) (c : Check) : Bool :=
  if c.id = "html_title" then htmlTitleTest html
  else if c.id = "css_vars" then cssVarsTest css
  else if c.id = "js_email" then jsEmailTest js
  else true

/-- The tester's JSON response (fields relevant to the gate). -/
structure TesterResponse where
  ok : Bool
  result : String
  details : List CheckResult
deriving DecidableEq

/-- The tester endpoint's verdict computation (src/server.js lines 395-430):
`html`, `css`, `js` are the fetched contents already defaulted to `""` for
absent files; the verdict is `failed` when `results.some(r => !r.ok)`,
taking every check into account regardless of its `required` flag. -/
def testerRun (html css js : String) (payloadChecks : List Check) : TesterResponse :=
  let results := (testerChecks payloadChecks).map fun c =>
    (⟨c.id, checkEval html css js c, c.description⟩ : CheckResult)
  let failed := results.any fun r => !r.ok
  ⟨!failed, if failed then "failed" else "passed", results⟩

/-! ## Quality stage (`POST /run/quality`, src/server.js 440-485 and
src/unnamed/part_007 417-460) -/

/-- The optional LLM review (`{review, verdict}`); `none` models the
endpoint running without an `OPENAI_API_KEY`. -/
structure LlmReview where
  review : String
  verdict : String
deriving DecidableEq

/-- The effective verdict string: without a review it stays the initial
`"pass"`; with one it is `review.verdict || "pass"` (an empty — falsy —
verdict string also defaults to `"pass"`). -/
def llmVerdictOf : Option LlmReview → String
  | none => "pass"
  | some r => if r.verdict = "" then "pass" else r.verdict

/-- Is any `"\n"`-separated line of the subject longer than `limit`
characters?  `n` is the length of the line carried so far. -/
def anyLineLonger (limit : Nat) : List Char → Nat → Bool
  | [], n => limit < n
  | c :: cs, n =>
    if c = '\n' then (decide (limit < n)) || anyLineLonger limit cs 0
    else anyLineLonger limit cs (n + 1)

/-- `s.split("\n").some(ln => ln.length > 300)` (src/server.js line 452). -/
def longLine (s : String) : Bool := anyLineLonger 300 s.toList 0

/-- Scan for the literal `tag` followed by a whitespace character or `>`,
i.e. the `/<tag[\s>]/i` patterns. -/
def tagScan (tag : List Char) : List Char → Bool
  | [] => false
  | c :: cs =>
    (match dropPreCI tag (c :: cs) with
      | some (d :: _) => d.isWhitespace || d = '>'
      | _ => false) || tagScan tag cs

/-- `/<style[\s>]/i.test(html)` (src/server.js line 454). -/
def styleTagTest (s : String) : Bool := tagScan "<style".toList s.toList

/-- `/<main[\s>]/i.test(html)` (src/server.js line 455). -/
def mainTagTest (s : String) : Bool := tagScan "<main".toList s.toList

/-- The findings list built by both quality variants, in push order:
long lines, inline style tag, missing main tag, and — when the LLM review
came back with verdict `"fail"` — the LLM finding (src/server.js
lines 451-469, identically src/unnamed/part_007 lines 429-446). -/
def qualityFindings (html css js : String) (llm : Option LlmReview) : List String :=
  (if longLine html || longLine css || longLine js
    then ["Very long lines detected."] else []) ++
  (if styleTagTest html
    then ["Inline <style> detected. Prefer external CSS."] else []) ++
  (if mainTagTest html then [] else ["Semantic <main> tag missing."]) ++
  (if llmVerdictOf llm = "fail"
    then ["LLM review suggests failing quality gate."] else [])

/-- The quality endpoint's JSON response (fields relevant to the gate). -/
structure QualityResponse where
  ok : Bool
  status : String
  findings : List String
deriving DecidableEq

/-- src/server.js line 473: `failed = findings.length > 1 ||
llmVerdict === "fail"` — the tolerant variant, commented "Be a bit
tolerant: only fail if there are >1 substantive findings or LLM says
fail.". -/
def qualityRun_srv (html css js : String) (llm : Option LlmReview) : QualityResponse :=
  let findings := qualityFindings html css js llm
  let failed := decide (1 < findings.length) || llmVerdictOf llm = "fail"
  ⟨!failed, if failed then "fail" else "pass", findings⟩

/-- src/unnamed/part_007 line 448: `failed = findings.length > 0` — the
zero-tolerance variant of the same endpoint. -/
def qualityRun_p7 (html css js : String) (llm : Option LlmReview) : QualityResponse :=
  let findings := qualityFindings html css js llm
  let failed := decide (0 < findings.length)
  ⟨!failed, if failed then "fail" else "pass", findings⟩

/-! ## Gate stage (`POST /run/gate`, src/server.js 505-532)

The gate reads the loosely-shaped request body, unwraps the optional
`payload` envelope, and either rejects (400), gives up, loops back to the
coder with an incremented retry counter and rebuilt feedback, or proceeds
to integrator and supervisor.  Every `forward` the handler performs is
recorded in the response model's `forwards` list. -/

/-- The orchestration context threaded through the pipeline.  `retries` and
`maxRetries` are JavaScript numbers read through `|| 0` and `|| 2`
respectively; a missing field behaves exactly like `0` there, so `Nat`
(with `0` standing for absent-or-zero) is a faithful model. -/
structure Orchestration where
  runId : String
  owner : String
  repo : String
  branch : String
  coder_plan : List String
  tester_plan : List String
  quality_rules : List String
  retries : Nat
  maxRetries : Nat
  feedback : Option String
deriving DecidableEq

/-- The tester result object as inspected by the gate; `Option` fields model
possibly-absent JSON fields. -/
structure TesterOutput where
  ok : Option Bool
  result : Option String
  advice : Option String
  details : List CheckResult
deriving DecidableEq

/-- The quality result object as inspected by the gate. -/
structure QualityOutput where
  ok : Option Bool
  status : Option String
  findings : List String
  review : Option String
deriving DecidableEq

/-- `tester?.result === "failed" || tester?.ok === false` (src/server.js
line 510); an absent `tester` makes both strict comparisons false. -/
def testerFailed : Option TesterOutput → Bool
  | none => false
  | some t => t.result = some "failed" || t.ok = some false

/-- `quality?.status === "fail" || quality?.ok === false` (src/server.js
line 511). -/
def qualityFailed : Option QualityOutput → Bool
  | none => false
  | some q => q.status = some "fail" || q.ok = some false

/-- `mergeFeedback(...chunks)` (src/server.js lines 140-145) at its only
call site, where every chunk is already a string: `filter(Boolean)` drops
the empty (falsy) chunks and the rest are joined with a blank line. -/
def mergeFeedback (chunks : List String) : String :=
  String.intercalate "\n\n" (chunks.filter fun c => c ≠ "")

/-- The chunk `(tester?.details || []).map(d => !d.ok ? "TEST FAIL: ..." :
"").join("\n")` (src/server.js line 519). -/
def testFailLines : Option TesterOutput → String
  | none => ""
  | some t =>
    String.intercalate "\n" (t.details.map fun d =>
      if !d.ok then "TEST FAIL: " ++ d.id ++ " — " ++ d.note else "")

/-- The chunk `(quality?.findings || []).map(f => "QUALITY FINDING: " +
f).join("\n")` (src/server.js line 520). -/
def qualityFindingLines : Option QualityOutput → String
  | none => ""
  | some q =>
    String.intercalate "\n" (q.findings.map fun f => "QUALITY FINDING: " ++ f)

/-- The feedback the gate builds on the loop-back path (src/server.js
lines 517-522): advice, failing-test lines, quality-finding lines and the
review text, merged by `mergeFeedback`. -/
def gateFeedback (t : Option TesterOutput) (q : Option QualityOutput) : String :=
  mergeFeedback
    [(match t with | none => "" | some t => t.advice.getD ""),
     testFailLines t,
     qualityFindingLines q,
     (match q with | none => "" | some q => q.review.getD "")]

/-- The fields of a gate request after envelope normalization. -/
structure GatePayload where
  tester : Option TesterOutput
  quality : Option QualityOutput
  orchestration : Option Orchestration
deriving DecidableEq

/-- A gate request body: either already `{payload: ...}`-wrapped or bare;
`top` carries the body's own fields. -/
structure GateBody where
  payload : Option GatePayload
  top : GatePayload
deriving DecidableEq

/-- `const p = req.body?.payload || req.body || {}` (src/server.js
line 506). -/
def unwrapGateBody (b : GateBody) : GatePayload := b.payload.getD b.top

/-- Everything observable about one gate invocation: the HTTP status of the
response (`res.json` alone responds 200), its `ok`, `status`, `reason`,
`error` and `feedback` JSON fields, and the list of stage forwards the
handler performed (stage path together with the orchestration context it
sent). -/
structure GateResponse where
  httpStatus : Nat
  ok : Bool
  status : Option String
  reason : Option String
  error : Option String
  feedback : Option String
  forwards : List (String × Orchestration)
deriving DecidableEq

/-- The effective retry ceiling `orchestration.maxRetries || 2`: a zero
(or absent) `maxRetries` is falsy and coerced to the default 2. -/
def effMaxRetries (m : Nat) : Nat := if m = 0 then 2 else m

/-- The gate handler of src/server.js lines 505-532.  Missing
`orchestration` is rejected with 400 before anything is forwarded.  On a
failing verdict the handler gives up once `(retries || 0) >=
(maxRetries || 2)`, otherwise it forwards `{...orchestration, retries:
retries + 1, feedback}` to the coder — the spread places the freshly built
feedback string after the copied fields, so it replaces any `feedback`
already in the context.  On a passing verdict it forwards the unchanged
orchestration to integrator and supervisor. -/
def gateCore (p : GatePayload) : GateResponse :=
  match p.orchestration with
  | none => ⟨400, false, none, none, some "Missing orchestration", none, []⟩
  | some orch =>
    if testerFailed p.tester || qualityFailed p.quality then
      if effMaxRetries orch.maxRetries ≤ orch.retries then
        ⟨200, false, some "gave_up", some "Max retries reached", none, none, []⟩
      else
        ⟨200, true, some "looped_to_coder", none, none,
          some (gateFeedback p.tester p.quality),
          [("/run/coder",
            { orch with
                retries := orch.retries + 1,
                feedback := some (gateFeedback p.tester p.quality) })]⟩
    else
      ⟨200, true, some "proceed", none, none, none,
        [("/run/integrator", orch), ("/run/supervisor", orch)]⟩

/-- The whole handler: unwrap the body, then decide. -/
def gate_srv (b : GateBody) : GateResponse := gateCore (unwrapGateBody b)

/-- The gate handler of src/unnamed/part_003 lines 379-407, taking its
inputs after `normalizePayload` (which always supplies an orchestration).
Absent tester and quality objects are defaulted to `{ok:false, ...}` and
hence count as failing.  On any failing verdict this variant loops straight
back to the coder with `retries + 1`: it has no retry ceiling and no
gave-up outcome. -/
def gate_p3 (tester : Option TesterOutput) (quality : Option QualityOutput)
    (orch : Orchestration) : GateResponse :=
  let tFail := match tester with
    | none => true
    | some t => t.ok = some false || t.result = some "failed"
  let qFail := match quality with
    | none => true
    | some q => q.ok = some false || q.status = some "fail"
  if tFail || qFail then
    ⟨200, true, some "looped_to_coder", none, none, none,
      [("/run/coder", { orch with retries := orch.retries + 1 })]⟩
  else
    ⟨200, true, some "proceed", none, none, none,
      [("/run/integrator", orch), ("/run/supervisor", orch)]⟩

/-! ## Concrete fixtures used by counterexamples and witnesses -/

/-- A freshly created context as the architect builds it: `retries = 0`,
`maxRetries = 2`. -/
def orchStart : Orchestration := ⟨"run_1", "own", "repo", "main", [], [], [], 0, 2, none⟩

/-- A quality result with the single finding `"A"`. -/
def qFindA : QualityOutput := ⟨some false, some "fail", ["A"], none⟩

/-- A quality result with the single finding `"B"`. -/
def qFindB : QualityOutput := ⟨some false, some "fail", ["B"], none⟩

/-- First gate request of the feedback scenario: fresh context, quality
finding `"A"`. -/
def gateBodyIter1 : GateBody := ⟨none, ⟨none, some qFindA, some orchStart⟩⟩

/-- The context the gate forwards to the coder after the first loop. -/
def orchAfter1 : Orchestration :=
  { orchStart with retries := 1, feedback := some "QUALITY FINDING: A" }

/-- Second gate request: the looped context comes back with a failing
quality result carrying finding `"B"`. -/
def gateBodyIter2 : GateBody := ⟨none, ⟨none, some qFindB, some orchAfter1⟩⟩

/-- A context whose retry budget is spent: `retries = 2 = maxRetries`. -/
def orchSpent : Orchestration := { orchStart with retries := 2 }

/-- A plainly failing tester result. -/
def testerFailedOut : TesterOutput := ⟨some false, some "failed", none, []⟩

/-- Gate request with a failing verdict and a spent budget. -/
def gateBodySpent : GateBody := ⟨none, ⟨some testerFailedOut, some qFindA, some orchSpent⟩⟩

/-- Store environment in which every write attempt throws a 409 conflict. -/
def envAllConflict : Nat → AttemptOutcome :=
  fun _ => ⟨.threw (some 404) "Not Found", .error ⟨some 409, "stale sha"⟩⟩

/-- Store environment in which the file is absent and the first write
succeeds with HTTP 201. -/
def envCreateOk : Nat → AttemptOutcome :=
  fun _ => ⟨.threw (some 404) "Not Found", .ok 201⟩

/-- The three-file batch of the partial-failure scenario. -/
def filesBatch : List FileSpec :=
  [⟨"index.html", "<!doctype html>"⟩, ⟨"script.js", "console.log(1)"⟩,
   ⟨"style.css", "body\x7bmargin:0\x7d"⟩]

/-- Per-file store environment: the middle file (`script.js`, position 1)
conflicts on every attempt, the others are created successfully. -/
def envBatch : Nat → Nat → AttemptOutcome :=
  fun fileIdx _ =>
    if fileIdx = 1 then ⟨.threw (some 404) "Not Found", .error ⟨some 409, "conflict"⟩⟩
    else ⟨.threw (some 404) "Not Found", .ok 201⟩

/-- The optional tester check of the tester counterexample. -/
def optionalEmailCheck : Check := ⟨"js_email", "script.js has email validation", false⟩

/-! # Theorems on the claims -/

/-- Claim C1, counterexample.  The claim says feedback accumulates across
loop iterations, every prior segment kept and the current findings appended
last.  In src/server.js lines 517-524 the gate rebuilds `feedback` from the
current tester/quality results only and the spread
`{...orchestration, retries, feedback}` overwrites the context's previous
value: after iteration 1 the forwarded feedback is exactly
`"QUALITY FINDING: A"`, and after iteration 2 — on the very context
iteration 1 produced — it is exactly `"QUALITY FINDING: B"`, with the
iteration-1 segment nowhere in it, so after L = 2 iterations the feedback
holds 1 segment, not 2. -/
theorem gate_feedback_replaced_cex :
    gate_srv gateBodyIter1 =
      ⟨200, true, some "looped_to_coder", none, none, some "QUALITY FINDING: A",
        [("/run/coder", orchAfter1)]⟩ ∧
    (gate_srv gateBodyIter2).feedback = some "QUALITY FINDING: B" ∧
    (gate_srv gateBodyIter2).forwards =
      [("/run/coder",
        { orchAfter1 with retries := 2, feedback := some "QUALITY FINDING: B" })] ∧
    hasSubstring "QUALITY FINDING: A" "QUALITY FINDING: B" = false := by
  refine ⟨by decide, by decide, by decide, by decide⟩

/-- Claim C1, amended: on every loop-back (failing verdict, retries below
the effective ceiling) the gate forwards to the coder a context whose
`feedback` is exactly the merge of the *current* iteration's validator
findings (`gateFeedback`), replacing — not appending to — whatever feedback
the incoming context carried; within that one merge the current segments
appear with the validator findings ordered last-built-last. -/
theorem gate_loop_feedback_current_only (b : GateBody) (orch : Orchestration)
    (horch : (unwrapGateBody b).orchestration = some orch)
    (hfail : (testerFailed (unwrapGateBody b).tester
      || qualityFailed (unwrapGateBody b).quality) = true)
    (hlt : orch.retries < effMaxRetries orch.maxRetries) :
    gate_srv b =
      ⟨200, true, some "looped_to_coder", none, none,
        some (gateFeedback (unwrapGateBody b).tester (unwrapGateBody b).quality),
        [("/run/coder",
          { orch with
              retries := orch.retries + 1,
              feedback := some (gateFeedback (unwrapGateBody b).tester
                (unwrapGateBody b).quality) })]⟩ := by
  unfold gate_srv gateCore
  simp only [horch, hfail]
  simp [Nat.not_le.mpr hlt]

/-- Witness for `gate_loop_feedback_current_only` at the concrete first
iteration of the feedback scenario. -/
theorem gate_loop_feedback_current_only_w :
    gate_srv gateBodyIter1 =
      ⟨200, true, some "looped_to_coder", none, none, some "QUALITY FINDING: A",
        [("/run/coder", orchAfter1)]⟩ := by
  rw [gate_loop_feedback_current_only gateBodyIter1 orchStart rfl (by decide) (by decide)]
  decide

/-- Claim C2, counterexample.  The gate variant of src/unnamed/part_003
lines 379-407 (cited by the claim) checks no retry ceiling at all: with a
failing tester verdict and a context whose budget is already spent
(`retries = 2 = maxRetries`), it still loops to the coder and forwards
`retries = 3 > maxRetries` — the claim's EXHAUSTED outcome never happens
there and the forwarded retry counter exceeds `maxRetries`. -/
theorem gate_retry_cap_cex :
    orchSpent.maxRetries ≤ orchSpent.retries ∧
    gate_p3 (some testerFailedOut) none orchSpent =
      ⟨200, true, some "looped_to_coder", none, none, none,
        [("/run/coder", { orchSpent with retries := 3 })]⟩ ∧
    orchSpent.maxRetries < orchSpent.retries + 1 := by
  refine ⟨by decide, by decide, by decide⟩

/-- Claim C2, amended and restricted to the src/server.js gate: provided
`maxRetries ≥ 1` (a zero or absent `maxRetries` is falsy and silently
replaced by the default 2 in `orchestration.maxRetries || 2`) and the
incoming context satisfies the run invariant `retries ≤ maxRetries`, every
context the gate forwards carries a retry counter that is no smaller than
the incoming one and still at most `maxRetries`; and whenever the tester or
quality verdict is failing and `retries ≥ maxRetries`, the gate answers
with the terminal `{ok:false, status:"gave_up", reason:"Max retries
reached"}` result and forwards to no stage at all. -/
theorem gate_retries_bounded (b : GateBody) (orch : Orchestration)
    (horch : (unwrapGateBody b).orchestration = some orch)
    (hmax : 1 ≤ orch.maxRetries) (hinv : orch.retries ≤ orch.maxRetries) :
    (∀ pr ∈ (gate_srv b).forwards,
      orch.retries ≤ pr.2.retries ∧ pr.2.retries ≤ orch.maxRetries) ∧
    ((testerFailed (unwrapGateBody b).tester
        || qualityFailed (unwrapGateBody b).quality) = true →
      orch.maxRetries ≤ orch.retries →
      gate_srv b =
        ⟨200, false, some "gave_up", some "Max retries reached", none, none, []⟩) := by
  have h0 : orch.maxRetries ≠ 0 := by omega
  have heff : effMaxRetries orch.maxRetries = orch.maxRetries := by
    simp [effMaxRetries, h0]
  unfold gate_srv gateCore
  simp only [horch]
  by_cases hfail : (testerFailed (unwrapGateBody b).tester
      || qualityFailed (unwrapGateBody b).quality) = true
  · rw [if_pos hfail]
    by_cases hle : effMaxRetries orch.maxRetries ≤ orch.retries
    · rw [if_pos hle]
      exact ⟨by intro pr hpr; simp at hpr, fun _ _ => rfl⟩
    · rw [if_neg hle]
      rw [heff] at hle
      constructor
      · intro pr hpr
        simp only [List.mem_singleton] at hpr
        subst hpr
        refine ⟨Nat.le_succ _, ?_⟩
        show orch.retries + 1 ≤ orch.maxRetries
        omega
      · intro _ hspent
        exact absurd hspent hle
  · rw [if_neg hfail]
    constructor
    · intro pr hpr
      simp only [List.mem_cons, List.not_mem_nil, or_false] at hpr
      rcases hpr with h | h <;> subst h <;> exact ⟨le_refl _, hinv⟩
    · intro hf _
      exact absurd hf hfail

/-- Witness for `gate_retries_bounded` at a concrete spent-budget request:
the gate answers gave_up and performs no forward. -/
theorem gate_retries_bounded_w :
    gate_srv gateBodySpent =
      ⟨200, false, some "gave_up", some "Max retries reached", none, none, []⟩ :=
  (gate_retries_bounded gateBodySpent orchSpent rfl (by decide) (by decide)).2
    (by decide) (by decide)

/-- Claim C3, counterexample.  The forwarder of src/server.js lines 124-138
has no try/catch around its `fetch`: a rejected transport propagates as an
exception to the calling stage (modelled by `Except.error`) instead of
being returned as an `{ok:false, error}` value. -/
theorem forward_transport_raises_cex :
    forward_srv (fun (_ : String) => (none : Option Unit)) (.netError "ECONNREFUSED")
      = Except.error "ECONNREFUSED" := rfl

/-- Claim C3, amended: only the src/unnamed/part_003 forwarder is
crash-proof — it returns `{ok:false, error}` on transport failure and a
value on every response.  The src/server.js forwarder returns a value for
every *received* response (an unparsable body becomes `{raw: text}`), but a
transport failure escapes it as an exception to the caller. -/
theorem forward_failure_modes (α : Type) (parse : String → Option α)
    (msg text : String) :
    forward_p3 parse (.netError msg) = .errorWrap msg ∧
    forward_srv parse (.netError msg) = .error msg ∧
    (∃ r, forward_srv parse (.response text) = .ok r) ∧
    (∃ r, forward_p3 parse (.response text) = r) := by
  refine ⟨rfl, rfl, ?_, ⟨_, rfl⟩⟩
  cases h : parse text with
  | none => exact ⟨.rawWrap text, by simp [forward_srv, h]⟩
  | some v => exact ⟨.value v, by simp [forward_srv, h]⟩

/-- Claim C4, counterexample.  A thrown 503 is not a not-found condition,
yet `getFileShaOrNull` in src/server.js lines 40-52 maps it to null too
(the source comments `// never throw here`): non-404 failures are not
propagated as errors in this variant. -/
theorem sha_error_to_null_cex :
    getFileShaOrNull_srv (.threw (some 503) "Service Unavailable") = none := rfl

/-- Claim C4, amended: in src/server.js *every* thrown store failure — 404
or not — is mapped to null, so null does not characterize not-found there;
only the src/unnamed/part_002 variant implements the claimed contract,
mapping exactly 404 to null and re-throwing every other failure. -/
theorem sha_lookup_error_mapping (st : Option Nat) (msg sha : String) :
    getFileShaOrNull_srv (.threw st msg) = none ∧
    getFileShaOrNull_p2 (.threw st msg) =
      (if st = some 404 then .ok none else .error ⟨st, msg⟩) ∧
    getFileShaOrNull_p2 (.file sha) = .ok (if sha = "" then none else some sha) ∧
    getFileShaOrNull_srv (.file sha) = (if sha = "" then none else some sha) := by
  exact ⟨rfl, rfl, rfl, rfl⟩

/-- Claim C5, counterexample.  With contents passing both hardcoded
required checks and a payload carrying the single *optional* `js_email`
check (`required:false`) over an empty script, every required check passes
yet the aggregate verdict is `"failed"`: src/server.js line 423 computes
`failed = results.some(r => !r.ok)` without consulting `required`. -/
theorem tester_optional_check_cex :
    (testerRun "<title>Hi</title>" ":root \x7b--a:1\x7d" "" [optionalEmailCheck]).result
      = "failed" ∧
    ((testerChecks [optionalEmailCheck]).all
      fun c => !c.required || checkEval "<title>Hi</title>" ":root \x7b--a:1\x7d" "" c)
      = true := by
  refine ⟨by decide, by decide⟩

/-- Claim C5, amended: the tester's aggregate verdict is pass iff *all*
checks pass — the hardcoded required ones and every payload check alike,
the `required` flag being recorded in the check list but ignored by the
verdict; each check is still reported individually in `details`. -/
theorem tester_verdict_all_checks (html css js : String) (checks : List Check) :
    (testerRun html css js checks).ok
      = (testerChecks checks).all (checkEval html css js) ∧
    (testerRun html css js checks).result
      = (if (testerChecks checks).all (checkEval html css js)
          then "passed" else "failed") ∧
    (testerRun html css js checks).details
      = (testerChecks checks).map
          (fun c => ⟨c.id, checkEval html css js c, c.description⟩) := by
  have hany : ∀ l : List Check, ((l.map fun c =>
      (⟨c.id, checkEval html css js c, c.description⟩ : CheckResult)).any
        fun r => !r.ok) = !l.all (checkEval html css js) := by
    intro l
    induction l with
    | nil => rfl
    | cons c cs ih => simp [ih, Bool.not_and]
  simp only [testerRun, hany, Bool.not_not]
  cases (testerChecks checks).all (checkEval html css js) <;> simp

/-- Claim C9, counterexample.  The quality endpoint of src/unnamed/part_007
lines 417-460 (cited by the claim) fails on `findings.length > 0`: an HTML
document merely missing `<main>` produces exactly one finding, the review
verdict is not `"fail"`, and the verdict is already `"fail"` — a single
finding alone does fail that variant's quality gate. -/
theorem quality_single_finding_fails_p7_cex :
    (qualityFindings "" "" "" none).length = 1 ∧
    llmVerdictOf none ≠ "fail" ∧
    qualityRun_p7 "" "" "" none = ⟨false, "fail", ["Semantic <main> tag missing."]⟩ := by
  refine ⟨by decide, by decide, by decide⟩

/-- Claim C9, amended: the tolerance threshold differs between the cited
variants.  In src/server.js the verdict is fail exactly when there are more
than one finding or the review verdict is `"fail"` — there a single finding
alone never fails the gate (third conjunct); in the src/unnamed/part_007
variant the verdict is fail exactly when there is any finding at all, so a
single finding does fail it. -/
theorem quality_verdict_thresholds (html css js : String) (llm : Option LlmReview) :
    (qualityRun_srv html css js llm).status
      = (if 1 < (qualityFindings html css js llm).length ∨ llmVerdictOf llm = "fail"
          then "fail" else "pass") ∧
    (qualityRun_p7 html css js llm).status
      = (if 0 < (qualityFindings html css js llm).length then "fail" else "pass") ∧
    ((qualityFindings html css js llm).length ≤ 1 → llmVerdictOf llm ≠ "fail" →
      (qualityRun_srv html css js llm).status = "pass" ∧
      (qualityRun_srv html css js llm).ok = true) := by
  refine ⟨?_, ?_, ?_⟩
  · simp only [qualityRun_srv]
    by_cases h1 : 1 < (qualityFindings html css js llm).length <;>
      by_cases h2 : llmVerdictOf llm = "fail" <;>
        simp [h1, h2]
  · simp only [qualityRun_p7]
    by_cases h : 0 < (qualityFindings html css js llm).length <;> simp [h]
  · intro hlen hver
    constructor <;> simp [qualityRun_srv, Nat.not_lt.mpr hlen, hver]

/-- Witness for `quality_verdict_thresholds`: on empty inputs the
src/server.js quality gate, facing exactly one finding and no failing
review, still passes. -/
theorem quality_verdict_thresholds_w :
    (qualityRun_srv "" "" "" none).status = "pass" ∧
    (qualityRun_srv "" "" "" none).ok = true :=
  (quality_verdict_thresholds "" "" "" none).2.2 (by decide) (by decide)

/-- The closed form of the backoff schedule: the k-th slept delay is
`400 * (i + k + 1)`, i.e. the base delay 400 ms multiplied by the attempt
number. -/
theorem backoffDelays_eq (n : Nat) : ∀ i : Nat,
    backoffDelays i n = (List.range n).map fun k => 400 * (i + k + 1) := by
  induction n with
  | zero => intro i; rfl
  | succ m ih =>
    intro i
    rw [show backoffDelays i (m + 1) = 400 * (i + 1) :: backoffDelays (i + 1) m from rfl,
      ih (i + 1), List.range_succ_eq_map, List.map_cons, List.map_map]
    congr 1
    congr 1
    funext k
    show 400 * (i + 1 + k + 1) = 400 * (i + (k + 1) + 1)
    ring

/-- Unfolding lemma: an iteration whose write succeeds returns at once,
reporting `created` / `updated` from the sha lookup of that iteration. -/
theorem commitLoop_write_ok (env : Nat → AttemptOutcome) (path ref : String)
    (i fuel st : Nat) (h : (env i).write = .ok st) :
    commitLoop env path ref i (fuel + 1) =
      ⟨.success ref (getFileShaOrNull_srv (env i).getContent).isNone
        (getFileShaOrNull_srv (env i).getContent).isSome path st, [], 1⟩ := by
  unfold commitLoop
  rw [h]

/-- Unfolding lemma: a failing write on the last attempt returns the failed
outcome without sleeping. -/
theorem commitLoop_write_error_final (env : Nat → AttemptOutcome) (path ref : String)
    (i : Nat) (e : StoreErr) (h : (env i).write = .error e) :
    commitLoop env path ref i 1 = ⟨.failure path e.msg e.status, [], 1⟩ := by
  unfold commitLoop
  rw [h]

/-- Unfolding lemma: a failing write on a non-final attempt sleeps
`400 * (i + 1)` and continues with the next attempt. -/
theorem commitLoop_write_error_step (env : Nat → AttemptOutcome) (path ref : String)
    (i f : Nat) (e : StoreErr) (h : (env i).write = .error e) :
    commitLoop env path ref i (f + 1 + 1) =
      ⟨(commitLoop env path ref (i + 1) (f + 1)).result,
       400 * (i + 1) :: (commitLoop env path ref (i + 1) (f + 1)).delays,
       (commitLoop env path ref (i + 1) (f + 1)).attempts + 1⟩ := by
  conv_lhs => unfold commitLoop
  rw [h]

/-- A run of the retry loop all of whose writes fail makes exactly `fuel`
attempts, sleeps the backoff schedule, and returns the last attempt's
failure. -/
theorem commitLoop_all_errors (env : Nat → AttemptOutcome) (path ref : String)
    (errs : Nat → StoreErr) :
    ∀ fuel i, 1 ≤ fuel →
    (∀ k, k < fuel → (env (i + k)).write = .error (errs (i + k))) →
    commitLoop env path ref i fuel =
      ⟨.failure path (errs (i + fuel - 1)).msg (errs (i + fuel - 1)).status,
       backoffDelays i (fuel - 1), fuel⟩ := by
  intro fuel
  induction fuel with
  | zero => intro i h; omega
  | succ f ih =>
    intro i _ herr
    have h0 : (env i).write = .error (errs i) := by
      have := herr 0 (by omega)
      simpa using this
    cases f with
    | zero =>
      rw [commitLoop_write_error_final env path ref i (errs i) h0]
      simp [backoffDelays]
    | succ g =>
      have hrec := ih (i + 1) (by omega) (by
        intro k hk
        have := herr (k + 1) (by omega)
        have harith : i + (k + 1) = i + 1 + k := by omega
        rw [harith] at this
        exact this)
      rw [commitLoop_write_error_step env path ref i g (errs i) h0, hrec]
      have harith : i + 1 + (g + 1) - 1 = i + (g + 1 + 1) - 1 := by omega
      rw [harith]
      rfl

/-- Claim C7, confirmed.  When every attempt's write fails (in particular
when each failure is a 409 conflict on a stale hash), the retry loop of
`commitWithRetry` started with budget `tries ≥ 1` makes exactly `tries`
attempts, sleeps `400 * (attempt number)` ms after each non-final failure
(the k-th delay of the schedule is `400 * (k + 1)`), and on exhaustion
returns the last attempt's failed outcome — a value with `ok:false`, not an
exception (the loop is total and `CommitResult.failure` carries
`ok:false`).  The source's default budget is `defaultTries = 3`. -/
theorem commit_retry_exhaustion (env : Nat → AttemptOutcome) (path ref : String)
    (errs : Nat → StoreErr) (tries : Nat) (h1 : 1 ≤ tries)
    (herr : ∀ k, k < tries → (env k).write = .error (errs k)) :
    commitLoop env path ref 0 tries =
      ⟨.failure path (errs (tries - 1)).msg (errs (tries - 1)).status,
       (List.range (tries - 1)).map (fun k => 400 * (k + 1)), tries⟩ ∧
    ((commitLoop env path ref 0 tries).result).isOk = false := by
  have h := commitLoop_all_errors env path ref errs tries 0 h1 (by
    intro k hk
    simpa using herr k hk)
  have h0 : (0 : Nat) + tries - 1 = tries - 1 := by omega
  rw [h0, backoffDelays_eq (tries - 1) 0] at h
  simp only [Nat.zero_add] at h
  exact ⟨h, by rw [h]; rfl⟩

/-- Witness for `commit_retry_exhaustion`: three attempts at the default
budget, all in 409 conflict, end in a failed outcome after sleeping 400 ms
and then 800 ms. -/
theorem commit_retry_exhaustion_w :
    commitLoop envAllConflict "style.css" "main" 0 3 =
      ⟨.failure "style.css" "stale sha" (some 409), [400, 800], 3⟩ ∧
    ((commitLoop envAllConflict "style.css" "main" 0 3).result).isOk = false := by
  have h := commit_retry_exhaustion envAllConflict "style.css" "main"
    (fun _ => ⟨some 409, "stale sha"⟩) 3 (by omega) (fun k _ => rfl)
  refine ⟨?_, h.2⟩
  rw [h.1]
  decide

/-- Claim C8, confirmed.  Every successful commit outcome is produced by
the first attempt whose write succeeded (all earlier attempts' writes
failed), and its `created` flag is set exactly when that attempt's
pre-commit sha lookup returned null while `updated` is set exactly when it
returned a hash (`created: !sha, updated: !!sha` in the source). -/
theorem commit_created_iff_no_sha (env : Nat → AttemptOutcome) (path ref : String) :
    ∀ fuel i br cr up p st ds n,
    commitLoop env path ref i fuel = ⟨.success br cr up p st, ds, n⟩ →
    ∃ j, i ≤ j ∧ j < i + fuel ∧
      (∀ k, i ≤ k → k < j → ∃ e, (env k).write = .error e) ∧
      (∃ stj, (env j).write = .ok stj) ∧
      cr = (getFileShaOrNull_srv (env j).getContent).isNone ∧
      up = (getFileShaOrNull_srv (env j).getContent).isSome := by
  intro fuel
  induction fuel with
  | zero =>
    intro i br cr up p st ds n h
    exact absurd h (by simp [commitLoop])
  | succ f ih =>
    intro i br cr up p st ds n h
    cases hw : (env i).write with
    | ok stv =>
      rw [commitLoop_write_ok env path ref i f stv hw] at h
      simp only [CommitRun.mk.injEq, CommitResult.success.injEq] at h
      refine ⟨i, le_refl _, by omega, ?_, ⟨stv, hw⟩, h.1.2.1.symm, h.1.2.2.1.symm⟩
      intro k hk1 hk2
      exact absurd hk2 (Nat.not_lt.mpr hk1)
    | error e =>
      cases f with
      | zero =>
        rw [commitLoop_write_error_final env path ref i e hw] at h
        simp at h
      | succ g =>
        rw [commitLoop_write_error_step env path ref i g e hw] at h
        simp only [CommitRun.mk.injEq] at h
        have hre : commitLoop env path ref (i + 1) (g + 1) =
            ⟨.success br cr up p st, (commitLoop env path ref (i + 1) (g + 1)).delays,
             (commitLoop env path ref (i + 1) (g + 1)).attempts⟩ := by
          rw [← h.1]
        obtain ⟨j, hj1, hj2, hpre, hok, hcr, hup⟩ :=
          ih (i + 1) br cr up p st _ _ hre
        refine ⟨j, by omega, by omega, ?_, hok, hcr, hup⟩
        intro k hk1 hk2
        by_cases hki : k = i
        · subst hki
          exact ⟨e, hw⟩
        · exact hpre k (by omega) hk2

/-- Witness for `commit_created_iff_no_sha`: a commit against an absent
file (404 on the sha lookup, write accepted with 201) reports
`created = true`, `updated = false`. -/
theorem commit_created_iff_no_sha_w :
    ∃ j, 0 ≤ j ∧ j < 0 + 3 ∧
      (∀ k, 0 ≤ k → k < j → ∃ e, (envCreateOk k).write = .error e) ∧
      (∃ stj, (envCreateOk j).write = .ok stj) ∧
      true = (getFileShaOrNull_srv (envCreateOk j).getContent).isNone ∧
      false = (getFileShaOrNull_srv (envCreateOk j).getContent).isSome :=
  commit_created_iff_no_sha envCreateOk "index.html" "main" 3 0 "main" true false
    "index.html" 201 [] 1 (by decide)

/-- Claim C6, confirmed.  `commitMany` walks the batch strictly in order:
it returns exactly one outcome per input file (same length, j-th outcome
belonging to the j-th file), each file's outcome is the result of its own
`commitWithRetry` run at the default budget — depending only on that file's
store environment, so an earlier file's exhausted retries do not prevent or
alter later files' attempts — and the batch aggregate surfaced to the coder
as `errors.length === 0` holds iff every per-file outcome is `ok` (the
logical AND of all outcomes). -/
theorem commitMany_outcomes_independent (env : Nat → Nat → AttemptOutcome) (ref : String) :
    ∀ (files : List FileSpec) (idx : Nat),
    (commitMany env ref files idx).1.length = files.length ∧
    (∀ j f, files[j]? = some f →
      (commitMany env ref files idx).1[j]? =
        some ((commitLoop (env (idx + j)) f.path ref 0 defaultTries).result)) ∧
    ((commitMany env ref files idx).2 = [] ↔
      (commitMany env ref files idx).1.all CommitResult.isOk) := by
  intro files
  induction files with
  | nil =>
    intro idx
    refine ⟨rfl, ?_, by simp [commitMany]⟩
    intro j f hf
    simp at hf
  | cons f0 rest ih =>
    intro idx
    obtain ⟨ihlen, ihget, ihiff⟩ := ih (idx + 1)
    refine ⟨?_, ?_, ?_⟩
    · simp [commitMany, ihlen]
    · intro j f hf
      cases j with
      | zero =>
        simp only [List.getElem?_cons_zero, Option.some.injEq] at hf
        subst hf
        simp [commitMany]
      | succ k =>
        simp only [List.getElem?_cons_succ] at hf
        have hk := ihget k f hf
        have harith : idx + (k + 1) = idx + 1 + k := by omega
        rw [harith]
        simpa [commitMany] using hk
    · by_cases hok : ((commitLoop (env idx) f0.path ref 0 defaultTries).result).isOk = true
      · simp [commitMany, hok, ihiff]
      · simp [commitMany, hok]

/-- Witness for `commitMany_outcomes_independent`: in a three-file batch
whose middle file exhausts its retries, the middle outcome is that file's
own failed run, the error list is non-empty, and the outer files' outcomes
are their own successful runs. -/
theorem commitMany_outcomes_independent_w :
    (commitMany envBatch "main" filesBatch 0).1[1]? =
      some ((commitLoop (envBatch (0 + 1)) "script.js" "main" 0 defaultTries).result) ∧
    (commitMany envBatch "main" filesBatch 0).1[2]? =
      some ((commitLoop (envBatch (0 + 2)) "style.css" "main" 0 defaultTries).result) ∧
    (commitMany envBatch "main" filesBatch 0).2 ≠ [] := by
  have h := commitMany_outcomes_independent envBatch "main" filesBatch 0
  refine ⟨h.2.1 1 ⟨"script.js", "console.log(1)"⟩ rfl,
    h.2.1 2 ⟨"style.css", "body\x7bmargin:0\x7d"⟩ rfl, ?_⟩
  intro he
  have hall := h.2.2.mp he
  exact absurd hall (by decide)

/-- Claim C10, confirmed: whenever the request body, after the
`req.body?.payload || req.body` unwrapping, has no `orchestration`, the
gate of src/server.js lines 505-508 responds 400 with
`{ok:false, error:"Missing orchestration"}` and performs no forward. -/
theorem gate_missing_orchestration_400 (b : GateBody)
    (h : (unwrapGateBody b).orchestration = none) :
    gate_srv b = ⟨400, false, none, none, some "Missing orchestration", none, []⟩ := by
  unfold gate_srv gateCore
  simp only [h]

/-- Witness for `gate_missing_orchestration_400`: a wrapped body whose
payload lacks `orchestration` is rejected with 400 and no forwards. -/
theorem gate_missing_orchestration_400_w :
    gate_srv ⟨some ⟨none, none, none⟩, ⟨none, none, some orchStart⟩⟩ =
      ⟨400, false, none, none, some "Missing orchestration", none, []⟩ :=
  gate_missing_orchestration_400 ⟨some ⟨none, none, none⟩, ⟨none, none, some orchStart⟩⟩ rfl

end A10
